import Mathlib

/- Shallow embedding of the Pyramid-Tracker acquisition engine
   (platform clients/services, rate governor, request executor,
   leaderboard cache repository, multi-platform dispatcher) and
   verification of the specification's claims against it.

   Conventions:
   * wall-clock times and rates are rationals (seconds);
   * database timestamps are integers (seconds since an arbitrary epoch);
   * Python float ratings are rationals;
   * exceptions are explicit constructors of small error types;
   * each external client call is represented by one element of an
     outcome trace supplied to the embedded function. -/

namespace PyramidTracker

/-! ## Data model (src/db/models.py) -/

/-- `PlatformStatus` from src/db/models.py: handle, optional rating,
existence flag, last-updated timestamp.  The opaque `raw_data` payload is
irrelevant to every claim and omitted. -/
structure PlatformStatus where
  handle : String
  rating : Option ℚ := none
  existsFlag : Bool := false
  lastUpdated : ℤ
  deriving Repr, DecidableEq

/-- `LeaderboardCache` from src/db/models.py: cache id, raw rows (opaque
strings here), last-updated timestamp.  The platform tag is irrelevant to
the freshness logic and omitted. -/
structure LeaderboardCache where
  cacheId : String
  entries : List String := []
  lastUpdated : ℤ
  deriving Repr, DecidableEq

/-! ## Rate Governor (src/platforms/base.py, `_rate_limit_by_minute`)

`BasePlatformClient._rate_limit_by_minute` reads `time.time()`, compares
the elapsed time since `self.last_request_time` against
`300.0 / effective_rate_limit`, sleeps for the difference if too little
time has passed, and finally stores `time.time()` into
`self.last_request_time`.  We model the wall clock by passing `now` in
and idealizing the post-sleep clock as `now + sleep_time`. -/

/-- Sleep duration computed by `_rate_limit_by_minute`: zero when the
bypass flag is set or enough time has elapsed, otherwise the remainder of
the `300 / rate` interval. -/
def rateLimitByMinuteSleep (bypass : Bool) (rate now last : ℚ) : ℚ :=
  if bypass then 0
  else if now - last < 300 / rate then 300 / rate - (now - last)
  else 0

/-- New `last_request_time` recorded by `_rate_limit_by_minute`: unchanged
under bypass (the method returns before the assignment), otherwise the
idealized wake-up time `now + sleep`. -/
def rateLimitByMinuteNewLast (bypass : Bool) (rate now last : ℚ) : ℚ :=
  if bypass then last
  else now + rateLimitByMinuteSleep bypass rate now last

/-! ## Leaderboard cache freshness
(src/db/repositories.py, `LeaderboardCacheRepository`) -/

/-- `LeaderboardCacheRepository.is_cache_stale`: a missing entry is stale;
otherwise the entry is stale when `(now - last_updated).days >= 1`.
Python's `timedelta.days` is the floor of the age in whole days, hence
`Int.fdiv` by 86400 seconds. -/
def is_cache_stale (entry : Option LeaderboardCache) (now : ℤ) : Bool :=
  match entry with
  | none => true
  | some e => (now - e.lastUpdated).fdiv 86400 ≥ 1

/-- `LeaderboardCacheRepository.get_cache_entry`: `stored` is the result
of the `find_one` lookup.  A found entry is returned unless
`check_freshness` is set and the entry is stale, in which case it is
treated as not found. -/
def get_cache_entry (stored : Option LeaderboardCache)
    (checkFreshness : Bool) (now : ℤ) : Option LeaderboardCache :=
  match stored with
  | none => none
  | some e =>
    if checkFreshness && is_cache_stale (some e) now then none
    else some e

/-! ## Total rating (src/db/models.py `Participant.calculate_total_rating`
and src/services/evaluation.py `EvaluationService.calculate_total_rating`) -/

/-- `Participant.calculate_total_rating` (src/db/models.py): fold over
`self.platforms.values()`; a value contributes its rating exactly when the
status is present and its rating is not `None`.  The `exists` flag is not
consulted. -/
def calculate_total_rating (platforms : List (Option PlatformStatus)) : ℚ :=
  platforms.foldl (fun total s =>
    match s with
    | some st =>
      match st.rating with
      | some r => total + r
      | none => total
    | none => total) 0

/-- The five members of the `Platform` enum (src/core/constants.py). -/
inductive Platform where
  | codechef | codeforces | geeksforgeeks | hackerrank | leetcode
  deriving Repr, DecidableEq

/-- Iteration order of `for platform in Platform` in
`EvaluationService.calculate_total_rating`. -/
def platformList : List Platform :=
  [.codechef, .codeforces, .geeksforgeeks, .hackerrank, .leetcode]

/-- `EvaluationService.calculate_total_rating` (src/services/evaluation.py):
for each enum member, `participant.platforms.get(platform.value)` is looked
up; a status contributes its rating exactly when it is present (truthy) and
its rating is not `None`.  The `exists` flag is not consulted. -/
def eval_calculate_total_rating (get : Platform → Option PlatformStatus) : ℚ :=
  platformList.foldl (fun total p =>
    match get p with
    | some st =>
      match st.rating with
      | some r => total + r
      | none => total
    | none => total) 0

/-- Replace a status's `exists` flag, leaving every other field alone
(used to state that the total-rating computations ignore the flag). -/
def setExistsFlag (b : Bool) (st : PlatformStatus) : PlatformStatus :=
  { st with existsFlag := b }

/-! ## Retrying Request Executor (src/platforms/base.py, `request`)

`BasePlatformClient.request` is decorated with
`@retry(retry=retry_if_exception_type(ClientError),
        wait=wait_exponential(multiplier=1, min=4, max=10),
        stop=stop_after_attempt(3))`.
Inside the body, `response.raise_for_status()` raises
`aiohttp.ClientResponseError`, which the body itself catches and converts:
status 429 becomes `core.exceptions.RateLimitError`, every other status
becomes `core.exceptions.ScraperError`.  Both are subclasses of the
application's `PyramidTrackerError`, not of aiohttp's `ClientError`, so
tenacity's retry predicate never matches them.  Only a connection-level
`ClientError` escaping `session.request` itself is retried; when
`stop_after_attempt(3)` is reached tenacity raises its own `RetryError`
(the default `reraise=False`). -/

/-- Outcome of one underlying `session.request(...)` /
`raise_for_status()` round. -/
inductive AttemptResult where
  | ok
  | httpStatus (code : ℕ)
  | connError
  deriving Repr, DecidableEq

/-- The Python exception classes relevant to the executor and to the
cache-backfill loops.  `clientResponseError` and `clientError` are
aiohttp's (`ClientResponseError` is a subclass of `ClientError`);
`rateLimitError` and `scraperError` are the application's own (and are
not `ClientError`s); `retryError` is tenacity's. -/
inductive PyExc where
  | rateLimitError
  | scraperError
  | clientResponseError (status : ℕ)
  | clientError
  | jsonDecodeError
  | retryError
  deriving Repr, DecidableEq

/-- `isinstance(e, (ClientError,))` for the exceptions above. -/
def isClientError : PyExc → Bool
  | .clientError => true
  | .clientResponseError _ => true
  | _ => false

/-- One attempt of the body of `BasePlatformClient.request`: a 2xx
response is returned; a `ClientResponseError` from `raise_for_status` is
caught and converted (429 to `RateLimitError`, anything else to
`ScraperError`); a connection-level `ClientError` is not caught by the
body and escapes to the tenacity wrapper. -/
def requestOnce (a : AttemptResult) : Except PyExc Unit :=
  match a with
  | .ok => .ok ()
  | .httpStatus c => if c = 429 then .error .rateLimitError else .error .scraperError
  | .connError => .error .clientError

/-- The tenacity wrapper around `requestOnce`: `fuel` is the number of
attempts still allowed (`stop_after_attempt(3)` means the initial call
has fuel 3).  Non-`ClientError` exceptions surface immediately; a
`ClientError` on the last allowed attempt surfaces as tenacity's
`RetryError`.  `none` means the supplied attempt trace was exhausted. -/
def requestWithRetry : ℕ → List AttemptResult → Option (Except PyExc Unit)
  | _, [] => none
  | 0, _ :: _ => some (.error .retryError)
  | fuel + 1, a :: rest =>
    match requestOnce a with
    | .ok u => some (.ok u)
    | .error e =>
      if isClientError e then
        if fuel = 0 then some (.error .retryError)
        else requestWithRetry fuel rest
      else some (.error e)

/-- `BasePlatformClient.request` as seen by its callers: at most 3
attempts. -/
def request (trace : List AttemptResult) : Option (Except PyExc Unit) :=
  requestWithRetry 3 trace

/-- Whether a finished `request` call surfaced an
`aiohttp.ClientResponseError` with status 429 (what the cache-backfill
handlers test for with `isinstance(e, aiohttp.ClientResponseError) and
e.status == 429`). -/
def requestYields429ResponseError (trace : List AttemptResult) : Bool :=
  match request trace with
  | some (.error (.clientResponseError c)) => c == 429
  | _ => false

/-! ## Leaderboard cache backfill
(src/platforms/geeksforgeeks/client.py, `initialize_cache`; the
HackerRank variant at src/platforms/hackerrank/client.py has the same
handler structure.)

Each iteration of the per-page `while retry_count <= max_retries` loop
performs `self.request(...)` followed by `response.json()`; we model the
pair as one element of type `Except PyExc PageData` (a decode failure is
`jsonDecodeError`).  The handler is
`except (ClientError, json.JSONDecodeError) as e:` with an inner
`isinstance(e, aiohttp.ClientResponseError) and e.status == 429` test
guarding the escalating cool-down retry. -/

/-- What `initialize_cache` extracts from a decoded page. -/
structure PageData where
  isEmpty : Bool
  hasZero : Bool
  deriving Repr, DecidableEq

/-- `except (ClientError, json.JSONDecodeError)`: which exceptions the
page loop catches. -/
def initCacheCatches : PyExc → Bool
  | .clientError => true
  | .clientResponseError _ => true
  | .jsonDecodeError => true
  | _ => false

/-- `isinstance(e, aiohttp.ClientResponseError) and e.status == 429`. -/
def isResponseError429 : PyExc → Bool
  | .clientResponseError c => c == 429
  | _ => false

/-- Result of the per-page fetch loop of `initialize_cache`. -/
inductive UnitResult where
  | cached (hasZero : Bool)
  | empty
  | abandoned
  | failedOther
  | raised (e : PyExc)
  deriving Repr, DecidableEq

/-- The `while retry_count <= max_retries` loop of
`GeeksForGeeksClient.initialize_cache` for one page: `outcomes` is the
trace of successive fetch results for this page, `retryCount` the current
`retry_count` (`max_retries = 3`).  A caught 429 response error sleeps
`60 * (retry_count + 1)` seconds and retries, abandoning the page after
the third retry; other caught errors skip the page; an uncaught
exception propagates.  `none` means the trace ran out. -/
def gfgFetchUnit : List (Except PyExc PageData) → ℕ → Option UnitResult
  | [], _ => none
  | o :: rest, retryCount =>
    match o with
    | .ok pd =>
      if pd.isEmpty then some .empty
      else some (.cached pd.hasZero)
    | .error e =>
      if initCacheCatches e then
        if isResponseError429 e then
          if retryCount + 1 ≤ 3 then gfgFetchUnit rest (retryCount + 1)
          else some .abandoned
        else some .failedOther
      else some (.raised e)

/-- Outcome of a whole `initialize_cache` run: the pages stored in the
in-memory/persistent cache, and the exception (if any) that propagated
out of the method, aborting it. -/
structure InitCacheResult where
  cachedPages : List ℕ
  raised : Option PyExc
  deriving Repr, DecidableEq

/-- The page loop of `GeeksForGeeksClient.initialize_cache`: one
per-page outcome trace per page, pages numbered from `page`.  A cached
page containing a zero/null score stops the loop; an empty page, an
abandoned page and a caught non-429 failure all move on to the next
page; an uncaught exception aborts the whole method.  `none` means some
page's trace ran out. -/
def gfgInitCacheGo : ℕ → List (List (Except PyExc PageData)) → Option InitCacheResult
  | _, [] => some ⟨[], none⟩
  | page, unit :: rest =>
    match gfgFetchUnit unit 0 with
    | none => none
    | some (.raised e) => some ⟨[], some e⟩
    | some .empty => gfgInitCacheGo (page + 1) rest
    | some .abandoned => gfgInitCacheGo (page + 1) rest
    | some .failedOther => gfgInitCacheGo (page + 1) rest
    | some (.cached hz) =>
      if hz then some ⟨[page], none⟩
      else (gfgInitCacheGo (page + 1) rest).map
        (fun r => ⟨page :: r.cachedPages, r.raised⟩)

/-- `GeeksForGeeksClient.initialize_cache` (network path, no fresh
database cache, starting from page 0). -/
def gfgInitCache (units : List (List (Except PyExc PageData))) :
    Option InitCacheResult :=
  gfgInitCacheGo 0 units

/-! ## Batch Orchestrator (platform services)

`get_participant_data` / `_retry_get_participant_data` / `process_batch`
have the same control flow in the CodeChef and Codeforces services
(src/platforms/codechef/service.py, src/platforms/codeforces/service.py);
the LeetCode service (src/platforms/leetcode/service.py) differs only by
an additional top-level `except (ScraperError, UserNotFoundError)` in
`process_batch`.  A client call is represented by one element of an
outcome trace. -/

/-- Outcome of one client call (`get_user_info` /
`get_single_user_info` / `get_user_contest_data`). -/
inductive ClientOutcome where
  | ok (rating : ℚ)
  | okNoData
  | userNotFound
  | rateLimited
  | scraperErr
  deriving Repr, DecidableEq

/-- Service-level exceptions that `get_participant_data` can propagate.
(`UserNotFoundError` is always caught inside and never propagates.) -/
inductive SvcErr where
  | rateLimitE
  | scraperE
  deriving Repr, DecidableEq

/-- What a `get_participant_data` call did: its result (`none` when the
outcome trace ran out mid-recursion, i.e. the client was still
rate-limiting when the supplied trace ended), the number of 60-second
cool-down sleeps, the number of client calls issued, and the unconsumed
trace. -/
structure GpdOut where
  result : Option (Except SvcErr PlatformStatus)
  sleeps60 : ℕ
  calls : ℕ
  rest : List ClientOutcome
  deriving Repr

/-- Core of `get_participant_data` after the handle guard: one client
call, then
* success: a fresh `PlatformStatus` with `exists=True`;
* falsy payload (`if not user_data`, Codeforces/LeetCode only): a fresh
  status with `exists=False`;
* `UserNotFoundError`: a fresh status with `exists=False`;
* `ScraperError`: logged and re-raised;
* `RateLimitError`: `await asyncio.sleep(60)`, then
  `_retry_get_participant_data`, which calls `get_participant_data`
  again (the handle guard is unchanged, so the recursion re-enters this
  core) and re-raises any `RateLimitError` coming out of it — a
  catch-log-reraise, applied below as the literal identity-on-errors
  match. -/
def getParticipantDataGo (now : ℤ) (handle : String) :
    List ClientOutcome → GpdOut
  | [] => ⟨none, 0, 0, []⟩
  | o :: rest =>
    match o with
    | .ok r => ⟨some (.ok ⟨handle, some r, true, now⟩), 0, 1, rest⟩
    | .okNoData => ⟨some (.ok ⟨handle, none, false, now⟩), 0, 1, rest⟩
    | .userNotFound => ⟨some (.ok ⟨handle, none, false, now⟩), 0, 1, rest⟩
    | .scraperErr => ⟨some (.error .scraperE), 0, 1, rest⟩
    | .rateLimited =>
      let g := getParticipantDataGo now handle rest
      let g1 : GpdOut :=
        match g.result with
        | some (.error .rateLimitE) => g
        | _ => g
      ⟨g1.result, g1.sleeps60 + 1, g1.calls + 1, g1.rest⟩

/-- Handle guard of the Codeforces and LeetCode services:
`if not username or username == "#n/a"`. -/
def cfHandleInvalid (h : String) : Bool := h == "" || h == "#n/a"

/-- Handle guard of the CodeChef service:
`if username == "" or username is None`. -/
def ccHandleInvalid (h : String) : Bool := h == ""

/-- `get_participant_data`: an invalid handle short-circuits to an
`exists=False` status with no client call; otherwise the core above
runs. -/
def get_participant_data (invalid : String → Bool) (now : ℤ)
    (handle : String) (trace : List ClientOutcome) : GpdOut :=
  if invalid handle then ⟨some (.ok ⟨handle, none, false, now⟩), 0, 0, trace⟩
  else getParticipantDataGo now handle trace

/-- `_retry_get_participant_data`: call `get_participant_data` and
re-raise a `RateLimitError` coming out of it (identity on every
result). -/
def retry_get_participant_data (invalid : String → Bool) (now : ℤ)
    (handle : String) (trace : List ClientOutcome) : GpdOut :=
  let g := get_participant_data invalid now handle trace
  match g.result with
  | some (.error .rateLimitE) => g
  | _ => g

/-- How a `process_batch` run ended. -/
inductive BatchTermination where
  | completed
  | exhaustedTrace
  | raised (e : SvcErr)
  deriving Repr, DecidableEq

/-- Observable effect of a `process_batch` run: how it ended, the final
stored `PlatformStatus` of each input participant (in order; mutated in
place on an overwrite), the statuses appended to the `results` list that
the caller hands to `repo.update_participants`, and the total client
calls and 60-second sleeps. -/
structure BatchOut where
  term : BatchTermination
  stored : List PlatformStatus
  results : List PlatformStatus
  calls : ℕ
  sleeps60 : ℕ
  deriving Repr

/-- `process_batch` of the CodeChef/Codeforces services.  Participants
are (stored status, client outcome trace) pairs.  The loop body is
`try: ... except RateLimitError: sleep(60); retry once, skipping on a
second RateLimitError or on ScraperError/UserNotFoundError`.  There is
no top-level handler for `ScraperError`, so one propagates out of the
method, leaving every remaining participant unprocessed and the caller's
`repo.update_participants(results)` unreached. -/
def processBatchCF (invalid : String → Bool) (now : ℤ) :
    List (PlatformStatus × List ClientOutcome) → BatchOut
  | [] => ⟨.completed, [], [], 0, 0⟩
  | (st, trace) :: ps =>
    let g := get_participant_data invalid now st.handle trace
    match g.result with
    | none =>
      ⟨.exhaustedTrace, st :: ps.map Prod.fst, [], g.calls, g.sleeps60⟩
    | some (.ok newSt) =>
      let b := processBatchCF invalid now ps
      ⟨b.term, newSt :: b.stored, newSt :: b.results,
        g.calls + b.calls, g.sleeps60 + b.sleeps60⟩
    | some (.error .scraperE) =>
      ⟨.raised .scraperE, st :: ps.map Prod.fst, [], g.calls, g.sleeps60⟩
    | some (.error .rateLimitE) =>
      let r := retry_get_participant_data invalid now st.handle g.rest
      match r.result with
      | none =>
        ⟨.exhaustedTrace, st :: ps.map Prod.fst, [],
          g.calls + r.calls, g.sleeps60 + r.sleeps60 + 1⟩
      | some (.ok newSt) =>
        let b := processBatchCF invalid now ps
        ⟨b.term, newSt :: b.stored, newSt :: b.results,
          g.calls + r.calls + b.calls, g.sleeps60 + r.sleeps60 + 1 + b.sleeps60⟩
      | some (.error _) =>
        let b := processBatchCF invalid now ps
        ⟨b.term, st :: b.stored, b.results,
          g.calls + r.calls + b.calls, g.sleeps60 + r.sleeps60 + 1 + b.sleeps60⟩

/-- `CodeChefService.process_batch`. -/
def codechef_process_batch (now : ℤ)
    (ps : List (PlatformStatus × List ClientOutcome)) : BatchOut :=
  processBatchCF ccHandleInvalid now ps

/-- `CodeforcesService.process_batch`. -/
def codeforces_process_batch (now : ℤ)
    (ps : List (PlatformStatus × List ClientOutcome)) : BatchOut :=
  processBatchCF cfHandleInvalid now ps

/-- `LeetCodeService.process_batch`: identical to the CodeChef/Codeforces
loop except for the extra top-level
`except (ScraperError, UserNotFoundError): continue`, which skips the
participant (stored status untouched) and moves on.  (The per-success
1-second pacing sleep is not a 60-second-class delay and is not
counted.) -/
def leetcode_process_batch (now : ℤ) :
    List (PlatformStatus × List ClientOutcome) → BatchOut
  | [] => ⟨.completed, [], [], 0, 0⟩
  | (st, trace) :: ps =>
    let g := get_participant_data cfHandleInvalid now st.handle trace
    match g.result with
    | none =>
      ⟨.exhaustedTrace, st :: ps.map Prod.fst, [], g.calls, g.sleeps60⟩
    | some (.ok newSt) =>
      let b := leetcode_process_batch now ps
      ⟨b.term, newSt :: b.stored, newSt :: b.results,
        g.calls + b.calls, g.sleeps60 + b.sleeps60⟩
    | some (.error .scraperE) =>
      let b := leetcode_process_batch now ps
      ⟨b.term, st :: b.stored, b.results,
        g.calls + b.calls, g.sleeps60 + b.sleeps60⟩
    | some (.error .rateLimitE) =>
      let r := retry_get_participant_data cfHandleInvalid now st.handle g.rest
      match r.result with
      | none =>
        ⟨.exhaustedTrace, st :: ps.map Prod.fst, [],
          g.calls + r.calls, g.sleeps60 + r.sleeps60 + 1⟩
      | some (.ok newSt) =>
        let b := leetcode_process_batch now ps
        ⟨b.term, newSt :: b.stored, newSt :: b.results,
          g.calls + r.calls + b.calls, g.sleeps60 + r.sleeps60 + 1 + b.sleeps60⟩
      | some (.error _) =>
        let b := leetcode_process_batch now ps
        ⟨b.term, st :: b.stored, b.results,
          g.calls + r.calls + b.calls, g.sleeps60 + r.sleeps60 + 1 + b.sleeps60⟩

/-! ## Multi-Platform Dispatcher (src/main.py, `process_results`)

`asyncio.gather(*tasks.values(), return_exceptions=True)` delivers one
settled outcome per platform task — an exception raised by one
orchestrator is captured in its own slot and cannot unwind the others —
so each task is modelled as a `(platform, Except)` pair.
`process_results` then walks the pairs: an `Exception` outcome is logged
and skipped, any other outcome is handed to
`repo.update_participants`. -/

/-- `process_results`: the list of `(platform, participants)` updates
actually persisted, in task order. -/
def process_results
    (tasks : List (String × Except SvcErr (List PlatformStatus))) :
    List (String × List PlatformStatus) :=
  tasks.foldl (fun acc t =>
    match t.2 with
    | .error _ => acc
    | .ok v => acc ++ [(t.1, v)]) []

/-! ## Existence verification
(src/platforms/geeksforgeeks/client.py `verify_user_exists`,
src/platforms/leetcode/client.py `verify_user_exists`) -/

/-- Outcome of the underlying lookup (`get_practice_score` /
`get_user_contest_data`) used by a `verify_user_exists` call. -/
inductive LookupOutcome where
  | ok
  | userNotFound
  | rateLimited
  | scraperErr
  deriving Repr, DecidableEq

/-- `GeeksForGeeksClient.verify_user_exists`: empty or `"#n/a"` handles
are `False`; a non-empty entry for the lowercased handle in the
initialized contest cache short-circuits to `True` (`cacheHit`);
otherwise `get_practice_score` is consulted — `UserNotFoundError` means
`False`, while any other `ScraperError` or `RateLimitError` is swallowed
and reported as `True`. -/
def gfg_verify_user_exists (handle : String) (cacheHit : Bool)
    (outcome : LookupOutcome) : Bool :=
  if cfHandleInvalid handle then false
  else if cacheHit then true
  else
    match outcome with
    | .ok => true
    | .userNotFound => false
    | .rateLimited => true
    | .scraperErr => true

/-- `LeetCodeClient.verify_user_exists`: empty or `"#n/a"` handles are
`False`; otherwise `get_user_contest_data` is consulted —
`UserNotFoundError` means `False`, any other `ScraperError` or
`RateLimitError` is swallowed and reported as `True`. -/
def leetcode_verify_user_exists (handle : String)
    (outcome : LookupOutcome) : Bool :=
  if cfHandleInvalid handle then false
  else
    match outcome with
    | .ok => true
    | .userNotFound => false
    | .rateLimited => true
    | .scraperErr => true

end PyramidTracker

namespace PyramidTracker

/-! ### Helper lemmas -/

/-- Whether a `get_participant_data` result is a propagating
`RateLimitError`. -/
def gpdRaisesRateLimit (g : GpdOut) : Bool :=
  match g.result with
  | some (.error .rateLimitE) => true
  | _ => false

theorem gpdGo_rateLimited_eq (now : ℤ) (handle : String)
    (rest : List ClientOutcome) :
    getParticipantDataGo now handle (ClientOutcome.rateLimited :: rest) =
      ⟨(getParticipantDataGo now handle rest).result,
       (getParticipantDataGo now handle rest).sleeps60 + 1,
       (getParticipantDataGo now handle rest).calls + 1,
       (getParticipantDataGo now handle rest).rest⟩ := by
  simp only [getParticipantDataGo]
  split <;> rfl

/-- `get_participant_data` can never raise `RateLimitError`: every
`RateLimitError` from the client is swallowed by its own handler, which
sleeps and recurses, so the re-raise inside
`_retry_get_participant_data` (and with it every
`except RateLimitError` branch in `process_batch`) is dead code. -/
theorem gpdGo_no_rateLimit (now : ℤ) (handle : String) :
    ∀ trace : List ClientOutcome,
      gpdRaisesRateLimit (getParticipantDataGo now handle trace) = false := by
  intro trace
  induction trace with
  | nil => rfl
  | cons o rest ih =>
    cases o with
    | ok r => rfl
    | okNoData => rfl
    | userNotFound => rfl
    | scraperErr => rfl
    | rateLimited =>
      rw [gpdGo_rateLimited_eq]
      simpa [gpdRaisesRateLimit] using ih

/-- Whether a finished `request` surfaced an `aiohttp.ClientResponseError`
(of any status). -/
def excIsResponseError (r : Option (Except PyExc Unit)) : Bool :=
  match r with
  | some (.error (.clientResponseError _)) => true
  | _ => false

/-- The executor converts every `ClientResponseError` inside its own body,
so no caller of `request` can ever observe one. -/
theorem requestWithRetry_no_responseError :
    ∀ (trace : List AttemptResult) (fuel : ℕ),
      excIsResponseError (requestWithRetry fuel trace) = false := by
  intro trace
  induction trace with
  | nil => intro fuel; cases fuel <;> rfl
  | cons a rest ih =>
    intro fuel
    cases fuel with
    | zero => rfl
    | succ f =>
      cases a with
      | ok => rfl
      | httpStatus c =>
        simp only [requestWithRetry, requestOnce]
        by_cases h : c = 429 <;> simp [h, isClientError, excIsResponseError]
      | connError =>
        show excIsResponseError
          (if f = 0 then some (.error .retryError)
           else requestWithRetry f rest) = false
        by_cases h : f = 0
        · rw [if_pos h]; rfl
        · rw [if_neg h]; exact ih f

theorem is_cache_stale_iff (e : LeaderboardCache) (now : ℤ) :
    is_cache_stale (some e) now = true ↔ 86400 ≤ now - e.lastUpdated := by
  simp only [is_cache_stale, ge_iff_le, decide_eq_true_eq]
  rw [Int.fdiv_eq_ediv _ (by norm_num), Int.le_ediv_iff_mul_le (by norm_num)]
  norm_num

theorem get_cache_entry_if (e : LeaderboardCache) (now : ℤ) :
    get_cache_entry (some e) true now =
      (if now - e.lastUpdated < 86400 then some e else none) := by
  simp only [get_cache_entry, Bool.true_and]
  by_cases h : 86400 ≤ now - e.lastUpdated
  · rw [if_pos ((is_cache_stale_iff e now).mpr h), if_neg (by omega)]
  · rw [if_neg (by
      intro hc
      exact h ((is_cache_stale_iff e now).mp hc)), if_pos (by omega)]

theorem process_results_eq_filterMap
    (tasks : List (String × Except SvcErr (List PlatformStatus))) :
    process_results tasks =
      tasks.filterMap (fun t =>
        match t.2 with
        | .ok v => some (t.1, v)
        | .error _ => none) := by
  have key : ∀ (l : List (String × Except SvcErr (List PlatformStatus)))
      (acc : List (String × List PlatformStatus)),
      l.foldl (fun acc t =>
        match t.2 with
        | .error _ => acc
        | .ok v => acc ++ [(t.1, v)]) acc =
      acc ++ l.foldl (fun acc t =>
        match t.2 with
        | .error _ => acc
        | .ok v => acc ++ [(t.1, v)]) [] := by
    intro l
    induction l with
    | nil => intro acc; simp
    | cons hd tl ih =>
      intro acc
      match hr : hd.2 with
      | .error e => simp only [List.foldl, hr]; exact ih acc
      | .ok v =>
        simp only [List.foldl, hr, List.nil_append]
        rw [ih (acc ++ [(hd.1, v)]), ih [(hd.1, v)]]
        simp [List.append_assoc]
  unfold process_results
  induction tasks with
  | nil => rfl
  | cons hd tl ih =>
    match hr : hd.2 with
    | .error e =>
      simp only [List.foldl, hr, List.filterMap]
      exact ih
    | .ok v =>
      simp only [List.foldl, hr, List.filterMap, List.nil_append]
      rw [key tl [(hd.1, v)], ih]
      simp

theorem calculate_total_rating_cons (s : Option PlatformStatus)
    (rest : List (Option PlatformStatus)) :
    calculate_total_rating (s :: rest) =
      (match s with
        | some st => (st.rating).getD 0
        | none => 0) + calculate_total_rating rest := by
  have key : ∀ (l : List (Option PlatformStatus)) (a : ℚ),
      l.foldl (fun total s =>
        match s with
        | some st =>
          match st.rating with
          | some r => total + r
          | none => total
        | none => total) a =
      a + l.foldl (fun total s =>
        match s with
        | some st =>
          match st.rating with
          | some r => total + r
          | none => total
        | none => total) 0 := by
    intro l
    induction l with
    | nil => intro a; simp
    | cons hd tl ih =>
      intro a
      match hd with
      | none => simpa using ih a
      | some st =>
        match hr : st.rating with
        | none => simp [List.foldl, hr]; rw [ih a]
        | some r =>
          simp [List.foldl, hr]
          rw [ih (a + r), ih r]
          ring
  match s with
  | none => simp [calculate_total_rating]
  | some st =>
    match hr : st.rating with
    | none => simp [calculate_total_rating, List.foldl, hr]
    | some r =>
      simp only [calculate_total_rating, List.foldl, hr, Option.getD]
      rw [key, key]
      ring

theorem calculate_total_rating_eq_sum (platforms : List (Option PlatformStatus)) :
    calculate_total_rating platforms =
      (platforms.map (fun s => ((s.bind PlatformStatus.rating).getD 0))).sum := by
  induction platforms with
  | nil => simp [calculate_total_rating]
  | cons hd tl ih =>
    rw [calculate_total_rating_cons hd tl, ih]
    match hd with
    | none => simp
    | some st => simp [Option.bind]

theorem calculate_total_rating_ignores_exists (b : Bool)
    (platforms : List (Option PlatformStatus)) :
    calculate_total_rating (platforms.map (Option.map (setExistsFlag b))) =
      calculate_total_rating platforms := by
  rw [calculate_total_rating_eq_sum, calculate_total_rating_eq_sum]
  congr 1
  rw [List.map_map]
  apply List.map_congr_left
  intro s _
  match s with
  | none => rfl
  | some st => rfl

theorem eval_calculate_total_rating_eq_sum (get : Platform → Option PlatformStatus) :
    eval_calculate_total_rating get =
      (platformList.map (fun p => (((get p).bind PlatformStatus.rating).getD 0))).sum := by
  have : ∀ (l : List Platform),
      l.foldl (fun total p =>
        match get p with
        | some st =>
          match st.rating with
          | some r => total + r
          | none => total
        | none => total) 0 =
      (l.map (fun p => (((get p).bind PlatformStatus.rating).getD 0))).sum := by
    intro l
    induction l with
    | nil => simp
    | cons hd tl ih =>
      have key : ∀ (l' : List Platform) (a : ℚ),
          l'.foldl (fun total p =>
            match get p with
            | some st =>
              match st.rating with
              | some r => total + r
              | none => total
            | none => total) a =
          a + l'.foldl (fun total p =>
            match get p with
            | some st =>
              match st.rating with
              | some r => total + r
              | none => total
            | none => total) 0 := by
        intro l'
        induction l' with
        | nil => intro a; simp
        | cons h t iht =>
          intro a
          match hg : get h with
          | none => simp [List.foldl, hg]; rw [iht a]
          | some st =>
            match hr : st.rating with
            | none => simp [List.foldl, hg, hr]; rw [iht a]
            | some r =>
              simp [List.foldl, hg, hr]
              rw [iht (a + r), iht r]
              ring
      match hg : get hd with
      | none => simp [List.foldl, hg, ih]
      | some st =>
        match hr : st.rating with
        | none => simp [List.foldl, hg, hr, ih, Option.bind]
        | some r =>
          simp only [List.foldl, hg, hr, List.map_cons, List.sum_cons]
          rw [key, ih, zero_add]
          simp [hr]
  exact this platformList

theorem eval_calculate_total_rating_ignores_exists (b : Bool)
    (get : Platform → Option PlatformStatus) :
    eval_calculate_total_rating (fun p => (get p).map (setExistsFlag b))
      = eval_calculate_total_rating get := by
  rw [eval_calculate_total_rating_eq_sum, eval_calculate_total_rating_eq_sum]
  congr 1
  apply List.map_congr_left
  intro p _
  cases h : get p with
  | none => simp [h]
  | some st => simp [h, setExistsFlag]

end PyramidTracker

namespace PyramidTracker

/-! ## Claim theorems -/

/-- C3: with the bypass flag off and a positive configured rate, the
per-minute Rate Governor suspends the caller at least until `60 / rate`
seconds have elapsed since the last granted slot and records the wake-up
time as the new last-granted time, so two consecutive granted slots on
the same client instance are at least `60 / rate` seconds apart.  (The
code actually enforces the even larger interval `300 / rate`.) -/
theorem rate_governor_min_separation (rate now last : ℚ) (hr : 0 < rate) :
    last + 60 / rate ≤ rateLimitByMinuteNewLast false rate now last := by
  have h60 : (60 : ℚ) / rate ≤ 300 / rate :=
    (div_le_div_iff_of_pos_right hr).mpr (by norm_num)
  by_cases hlt : now - last < 300 / rate
  · simp only [rateLimitByMinuteNewLast, rateLimitByMinuteSleep,
      Bool.false_eq_true, if_false, if_pos hlt]
    linarith
  · simp only [rateLimitByMinuteNewLast, rateLimitByMinuteSleep,
      Bool.false_eq_true, if_false, if_neg hlt]
    have := not_lt.mp hlt
    linarith

/-- C3 witness: rate 2 per minute, previous slot at t = 3, call at
t = 7: the recorded new slot time (153) is at least 3 + 60 / 2 = 33. -/
theorem rate_governor_min_separation_witness :
    (0 : ℚ) < 2 ∧ (3 : ℚ) + 60 / 2 ≤ rateLimitByMinuteNewLast false 2 7 3 :=
  ⟨by norm_num, rate_governor_min_separation 2 7 3 (by norm_num)⟩

/-- C4: outcome classification of the retrying executor, evaluated on
concrete attempt traces.  An HTTP 429 surfaces `RateLimitError`
immediately (as claimed), but an HTTP 500 surfaces `ScraperError` on the
very first attempt — it is never retried, because the body of `request`
converts the `ClientResponseError` before tenacity's
`retry_if_exception_type(ClientError)` can see it — and three
connection-level failures exhaust the retries with tenacity's
`RetryError`, not with a `ScraperError`. -/
theorem request_outcome_classification_eval :
    request [.httpStatus 429] = some (.error .rateLimitError)
    ∧ request [.httpStatus 500, .ok] = some (.error .scraperError)
    ∧ request [.connError, .ok] = some (.ok ())
    ∧ request [.connError, .connError, .connError]
        = some (.error .retryError) :=
  ⟨rfl, rfl, rfl, rfl⟩

/-- C5: a 429 during cache backfill aborts the whole `initialize_cache`
run.  Page 0 succeeds and is cached, page 1 returns HTTP 429 — which
`request` surfaces as `RateLimitError`, a class the page loop's
`except (ClientError, json.JSONDecodeError)` does not catch — so the
exception propagates, page 2 is never attempted, and the escalating
cool-down branch never runs (no caller of `request` can ever observe the
`ClientResponseError` that branch tests for). -/
theorem cache_init_rate_limit_aborts_eval :
    gfgInitCache
        [[.ok ⟨false, false⟩], [.error .rateLimitError], [.ok ⟨false, false⟩]]
      = some ⟨[0], some .rateLimitError⟩
    ∧ request [.httpStatus 429] = some (.error .rateLimitError)
    ∧ initCacheCatches .rateLimitError = false
    ∧ (∀ trace : List AttemptResult,
        requestYields429ResponseError trace = false) := by
  refine ⟨rfl, rfl, rfl, ?_⟩
  intro trace
  have h := requestWithRetry_no_responseError trace 3
  unfold requestYields429ResponseError request
  match hr : requestWithRetry 3 trace with
  | none => simp
  | some (.ok u) => simp
  | some (.error e) =>
    cases e <;> simp_all [excIsResponseError]

/-- C6 counterexample: a stored status with `exists = false` that still
carries rating 1500 contributes the full 1500 to
`Participant.calculate_total_rating` — not nothing. -/
theorem total_rating_exists_false_cex :
    calculate_total_rating [some ⟨"h", some 1500, false, 0⟩] = 1500
    ∧ (⟨"h", some 1500, false, 0⟩ : PlatformStatus).existsFlag = false
    ∧ calculate_total_rating [some ⟨"h", some 1500, false, 0⟩] ≠ 0 :=
  ⟨by norm_num [calculate_total_rating], rfl,
   by norm_num [calculate_total_rating]⟩

/-- C6 (amended): both total-rating computations ignore the `exists` flag
entirely: the total is the sum of all non-null stored ratings — a status
contributes nothing only when its rating is null, and flipping every
`exists` flag never changes the total. -/
theorem total_rating_ignores_exists_flag :
    (∀ ps, calculate_total_rating ps
        = (ps.map (fun s => ((s.bind PlatformStatus.rating).getD 0))).sum)
    ∧ (∀ (b : Bool) (ps : List (Option PlatformStatus)),
        calculate_total_rating (ps.map (Option.map (setExistsFlag b)))
          = calculate_total_rating ps)
    ∧ (∀ get, eval_calculate_total_rating get
        = (platformList.map
            (fun p => (((get p).bind PlatformStatus.rating).getD 0))).sum)
    ∧ (∀ (b : Bool) (get : Platform → Option PlatformStatus),
        eval_calculate_total_rating (fun p => (get p).map (setExistsFlag b))
          = eval_calculate_total_rating get) :=
  ⟨calculate_total_rating_eq_sum, calculate_total_rating_ignores_exists,
   eval_calculate_total_rating_eq_sum, eval_calculate_total_rating_ignores_exists⟩

/-- C8: a freshness-checked read returns a found entry exactly when its
age is under one day (86400 s) and otherwise reports it as not found; in
particular an entry 25 hours old is excluded while one 1 hour old is
returned unchanged. -/
theorem cache_freshness_read :
    (∀ (e : LeaderboardCache) (now : ℤ),
        get_cache_entry (some e) true now
          = (if now - e.lastUpdated < 86400 then some e else none))
    ∧ (∀ (now : ℤ) (rows : List String),
        get_cache_entry (some ⟨"contest1", rows, now - 90000⟩) true now = none)
    ∧ (∀ (now : ℤ) (rows : List String),
        get_cache_entry (some ⟨"contest1", rows, now - 3600⟩) true now
          = some ⟨"contest1", rows, now - 3600⟩) := by
  refine ⟨get_cache_entry_if, ?_, ?_⟩
  · intro now rows
    rw [get_cache_entry_if]
    exact if_neg (by show ¬now - (now - 90000) < 86400; omega)
  · intro now rows
    rw [get_cache_entry_if]
    exact if_pos (by show now - (now - 3600) < 86400; omega)

/-- C9: the dispatcher persists exactly the platforms whose orchestrator
settled without an exception, in task order; a platform whose
orchestrator raised is logged and omitted, and in the concrete
three-platform instance (B always raising `ScraperError`) the merge
contains the A and C updates and excludes B.  (`asyncio.gather` is
called with `return_exceptions=True`, so each task's exception is
captured in its own result slot and the dispatch itself is a total
function of the per-task outcomes.) -/
theorem dispatcher_partial_isolation :
    (∀ tasks, process_results tasks
        = tasks.filterMap (fun t =>
            match t.2 with
            | .ok v => some (t.1, v)
            | .error _ => none))
    ∧ process_results
        [("CodeChef", .ok [⟨"a", some 1, true, 0⟩]),
         ("Codeforces", .error .scraperE),
         ("LeetCode", .ok [⟨"c", some 3, true, 0⟩])]
      = [("CodeChef", [⟨"a", some 1, true, 0⟩]),
         ("LeetCode", [⟨"c", some 3, true, 0⟩])] :=
  ⟨process_results_eq_filterMap, rfl⟩

/-- C1: `get_participant_data` evaluated on concrete client traces.  A
`RateLimitError` on attempt 1 followed by a valid result yields that
result after exactly one 60-second sleep (the claim's recovery half),
but a second consecutive `RateLimitError` does not skip the
participant: the service sleeps another 60 seconds and issues a third
client call, returning its result — and `get_participant_data` can
never propagate a `RateLimitError` at all, so the skip handler in
`process_batch` is unreachable. -/
theorem rate_limit_retry_recursion_eval :
    (get_participant_data ccHandleInvalid 5 "h" [.rateLimited, .ok 100]).result
      = some (.ok ⟨"h", some 100, true, 5⟩)
    ∧ (get_participant_data ccHandleInvalid 5 "h"
        [.rateLimited, .ok 100]).sleeps60 = 1
    ∧ (get_participant_data ccHandleInvalid 5 "h"
        [.rateLimited, .rateLimited, .ok 100]).result
      = some (.ok ⟨"h", some 100, true, 5⟩)
    ∧ (get_participant_data ccHandleInvalid 5 "h"
        [.rateLimited, .rateLimited, .ok 100]).sleeps60 = 2
    ∧ (get_participant_data ccHandleInvalid 5 "h"
        [.rateLimited, .rateLimited, .ok 100]).calls = 3
    ∧ (∀ (now : ℤ) (handle : String) (trace : List ClientOutcome),
        gpdRaisesRateLimit (getParticipantDataGo now handle trace) = false) :=
  ⟨rfl, rfl, rfl, rfl, rfl, gpdGo_no_rateLimit⟩

/-- C2 counterexample: in the CodeChef orchestrator a `ScraperError` on
the first participant's first attempt propagates out of `process_batch`:
the run ends raised, no participant reaches the results list, and the
second participant's client is never called (1 call total). -/
theorem scraper_error_aborts_codechef_batch :
    (codechef_process_batch 5
        [(⟨"alice", none, false, 0⟩, [.scraperErr]),
         (⟨"bob", none, false, 0⟩, [.ok 7])]).term
      = .raised .scraperE
    ∧ (codechef_process_batch 5
        [(⟨"alice", none, false, 0⟩, [.scraperErr]),
         (⟨"bob", none, false, 0⟩, [.ok 7])]).results = []
    ∧ (codechef_process_batch 5
        [(⟨"alice", none, false, 0⟩, [.scraperErr]),
         (⟨"bob", none, false, 0⟩, [.ok 7])]).calls = 1 :=
  ⟨rfl, rfl, rfl⟩

/-- C2 (amended): `ScraperError` handling differs per orchestrator.  The
LeetCode `process_batch` catches it at top level, skipping just that
participant (stored status untouched, nothing appended) and continuing;
the CodeChef and Codeforces `process_batch` catch it only inside the
rate-limit retry path, so a `ScraperError` raised on a participant's
first attempt propagates and aborts the whole batch with no results. -/
theorem scraper_error_handling_per_service (now : ℤ) (st : PlatformStatus)
    (ps : List (PlatformStatus × List ClientOutcome))
    (h : cfHandleInvalid st.handle = false) :
    ((leetcode_process_batch now ((st, [.scraperErr]) :: ps)).term
        = (leetcode_process_batch now ps).term
      ∧ (leetcode_process_batch now ((st, [.scraperErr]) :: ps)).stored
        = st :: (leetcode_process_batch now ps).stored
      ∧ (leetcode_process_batch now ((st, [.scraperErr]) :: ps)).results
        = (leetcode_process_batch now ps).results)
    ∧ codeforces_process_batch now ((st, [.scraperErr]) :: ps)
        = ⟨.raised .scraperE, st :: ps.map Prod.fst, [], 1, 0⟩
    ∧ codechef_process_batch now ((st, [.scraperErr]) :: ps)
        = ⟨.raised .scraperE, st :: ps.map Prod.fst, [], 1, 0⟩ := by
  have hcc : ccHandleInvalid st.handle = false := by
    simp only [cfHandleInvalid, Bool.or_eq_false_iff] at h
    exact h.1
  have hg : get_participant_data cfHandleInvalid now st.handle [.scraperErr]
      = ⟨some (.error .scraperE), 0, 1, []⟩ := by
    simp [get_participant_data, h, getParticipantDataGo]
  have hgc : get_participant_data ccHandleInvalid now st.handle [.scraperErr]
      = ⟨some (.error .scraperE), 0, 1, []⟩ := by
    simp [get_participant_data, hcc, getParticipantDataGo]
  refine ⟨⟨?_, ?_, ?_⟩, ?_, ?_⟩ <;>
    simp [leetcode_process_batch, codeforces_process_batch,
      codechef_process_batch, processBatchCF, hg, hgc]

/-- C2 witness: the amended statement at a concrete participant
("alice", valid handle) and an empty remainder of the batch. -/
theorem scraper_error_handling_per_service_witness :
    cfHandleInvalid (PlatformStatus.handle ⟨"alice", none, false, 0⟩) = false
    ∧ (((leetcode_process_batch 5
          [((⟨"alice", none, false, 0⟩ : PlatformStatus), [.scraperErr])]).term
        = (leetcode_process_batch 5 []).term
      ∧ (leetcode_process_batch 5
          [((⟨"alice", none, false, 0⟩ : PlatformStatus), [.scraperErr])]).stored
        = (⟨"alice", none, false, 0⟩ : PlatformStatus)
            :: (leetcode_process_batch 5 []).stored
      ∧ (leetcode_process_batch 5
          [((⟨"alice", none, false, 0⟩ : PlatformStatus), [.scraperErr])]).results
        = (leetcode_process_batch 5 []).results)
    ∧ codeforces_process_batch 5
          [((⟨"alice", none, false, 0⟩ : PlatformStatus), [.scraperErr])]
        = ⟨.raised .scraperE, [⟨"alice", none, false, 0⟩], [], 1, 0⟩
    ∧ codechef_process_batch 5
          [((⟨"alice", none, false, 0⟩ : PlatformStatus), [.scraperErr])]
        = ⟨.raised .scraperE, [⟨"alice", none, false, 0⟩], [], 1, 0⟩) :=
  ⟨rfl, scraper_error_handling_per_service 5 ⟨"alice", none, false, 0⟩ [] rfl⟩

/-- C7 counterexample: re-running the Codeforces `process_batch` over a
participant already stored as `exists = false` (handle "ghost", stale
rating 1500) issues one fresh client call, overwrites the stored status
with a newly built one (rating wiped, new `last_updated`), and
re-appends the participant to the persisted results. -/
theorem rerun_not_found_participant_cex :
    (codeforces_process_batch 5
        [(⟨"ghost", some 1500, false, 0⟩, [.userNotFound])]).calls = 1
    ∧ (codeforces_process_batch 5
        [(⟨"ghost", some 1500, false, 0⟩, [.userNotFound])]).stored
      = [⟨"ghost", none, false, 5⟩]
    ∧ ((⟨"ghost", none, false, 5⟩ : PlatformStatus)
        ≠ ⟨"ghost", some 1500, false, 0⟩)
    ∧ (codeforces_process_batch 5
        [(⟨"ghost", some 1500, false, 0⟩, [.userNotFound])]).results
      = [⟨"ghost", none, false, 5⟩] :=
  ⟨rfl, rfl, by decide, rfl⟩

/-- C7 (amended): re-running `process_batch` over a participant already
marked `exists = false` with a usable handle re-queries the platform
(one client call) and, when the attempt resolves, overwrites the stored
status with a freshly built one and re-persists it; only a participant
the orchestrator skips (e.g. via the LeetCode top-level `ScraperError`
handler) keeps the stored status untouched for a future run. -/
theorem rerun_overwrites_and_requeries (now : ℤ) (st : PlatformStatus)
    (ps : List (PlatformStatus × List ClientOutcome))
    (_hex : st.existsFlag = false) (h : cfHandleInvalid st.handle = false) :
    (codeforces_process_batch now [(st, [.userNotFound])]).calls = 1
    ∧ (codeforces_process_batch now [(st, [.userNotFound])]).stored
        = [⟨st.handle, none, false, now⟩]
    ∧ (codeforces_process_batch now [(st, [.userNotFound])]).results
        = [⟨st.handle, none, false, now⟩]
    ∧ (leetcode_process_batch now ((st, [.scraperErr]) :: ps)).stored
        = st :: (leetcode_process_batch now ps).stored
    ∧ (leetcode_process_batch now ((st, [.scraperErr]) :: ps)).results
        = (leetcode_process_batch now ps).results := by
  have hg : get_participant_data cfHandleInvalid now st.handle [.userNotFound]
      = ⟨some (.ok ⟨st.handle, none, false, now⟩), 0, 1, []⟩ := by
    simp [get_participant_data, h, getParticipantDataGo]
  have hgs : get_participant_data cfHandleInvalid now st.handle [.scraperErr]
      = ⟨some (.error .scraperE), 0, 1, []⟩ := by
    simp [get_participant_data, h, getParticipantDataGo]
  refine ⟨?_, ?_, ?_, ?_, ?_⟩ <;>
    simp [leetcode_process_batch, codeforces_process_batch,
      processBatchCF, hg, hgs]

/-- C7 witness: the amended statement at the concrete stored status
("ghost", rating 1500, `exists = false`, last updated 0), rerun at time
5 with an empty remainder of the batch. -/
theorem rerun_overwrites_and_requeries_witness :
    PlatformStatus.existsFlag ⟨"ghost", some 1500, false, 0⟩ = false
    ∧ cfHandleInvalid (PlatformStatus.handle ⟨"ghost", some 1500, false, 0⟩)
        = false
    ∧ ((codeforces_process_batch 5
          [((⟨"ghost", some 1500, false, 0⟩ : PlatformStatus),
            [.userNotFound])]).calls = 1
    ∧ (codeforces_process_batch 5
          [((⟨"ghost", some 1500, false, 0⟩ : PlatformStatus),
            [.userNotFound])]).stored
        = [⟨"ghost", none, false, 5⟩]
    ∧ (codeforces_process_batch 5
          [((⟨"ghost", some 1500, false, 0⟩ : PlatformStatus),
            [.userNotFound])]).results
        = [⟨"ghost", none, false, 5⟩]
    ∧ (leetcode_process_batch 5
          [((⟨"ghost", some 1500, false, 0⟩ : PlatformStatus),
            [.scraperErr])]).stored
        = (⟨"ghost", some 1500, false, 0⟩ : PlatformStatus)
            :: (leetcode_process_batch 5 []).stored
    ∧ (leetcode_process_batch 5
          [((⟨"ghost", some 1500, false, 0⟩ : PlatformStatus),
            [.scraperErr])]).results
        = (leetcode_process_batch 5 []).results) :=
  ⟨rfl, rfl,
   rerun_overwrites_and_requeries 5 ⟨"ghost", some 1500, false, 0⟩ [] rfl rfl⟩

/-- C10: both verify-existence operations report `False` exactly for an
empty or `"#n/a"` handle or an underlying `UserNotFoundError` (for
GeeksForGeeks, only when the contest cache did not already contain the
handle); any other `ScraperError` or `RateLimitError` outcome is
reported as `True`. -/
theorem verify_user_exists_characterization :
    ∀ (handle : String) (cacheHit : Bool) (outcome : LookupOutcome),
      (gfg_verify_user_exists handle cacheHit outcome = false
        ↔ (cfHandleInvalid handle = true
            ∨ (cacheHit = false ∧ outcome = .userNotFound)))
      ∧ (leetcode_verify_user_exists handle outcome = false
        ↔ (cfHandleInvalid handle = true ∨ outcome = .userNotFound)) := by
  intro handle cacheHit outcome
  unfold gfg_verify_user_exists leetcode_verify_user_exists
  cases hcf : cfHandleInvalid handle <;> cases cacheHit <;>
    cases outcome <;> simp [hcf]

end PyramidTracker
